import Mathlib

/-!
# Verification of the OCR backend core pipeline

Shallow embedding of the backend of `ocr-app`:

* `src/backend/src/core/security.py` — `validate_image_content_type`, `validate_file_size`
* `src/backend/src/services/ocr_services.py` — `OCRService.is_healthy`,
  `OCRService.validate_image`, `OCRService.process_image`, `OCRService._extract_text`
* `src/backend/src/utils/image_processor.py` — `ImageProcessor.preprocess`
* `src/backend/src/api/routes.py` — the `predict` route

External library effects (PIL decode/verify, OpenCV colour conversion and
median blur, the EasyOCR engine call, multipart body read) are modelled as
explicit outcome parameters of type `Except String _`: an `.error msg`
value stands for the library call raising an exception whose `str()` is
`msg`, and `.ok v` for it returning `v`.  Python `float` arithmetic is
idealised as exact rational arithmetic (`ℚ`); Python's `round(x, 3)`
(round-half-to-even to 3 decimal places) is modelled exactly on ℚ by
`pyRound3`.
-/

namespace OCRApp

/-- The EasyOCR reader object constructed by `easyocr.Reader(languages, gpu=...)`;
its contents are opaque to the service layer. -/
structure EngineReader where
  languages : List String
  gpu : Bool
deriving Repr, DecidableEq

/-- The state of `OCRService`: `self.reader` is either an initialized EasyOCR
reader or `None` (when `easyocr.Reader` raised during `_initialize_ocr`). -/
structure OCRServiceState where
  reader : Option EngineReader
deriving Repr, DecidableEq

/-- `OCRService.is_healthy`: `return self.reader is not None`. -/
def is_healthy (svc : OCRServiceState) : Bool :=
  svc.reader.isSome

/-- `security.validate_image_content_type`:
`supported_types = ["image/png", "image/jpeg", "image/jpg"]; return content_type in supported_types`. -/
def validate_image_content_type (content_type : String) : Bool :=
  let supported_types := ["image/png", "image/jpeg", "image/jpg"]
  decide (content_type ∈ supported_types)

/-- `security.validate_file_size`: `max_size = max_size_mb * 1024 * 1024;
return len(content) <= max_size`.  Bytes are modelled as a list of byte values. -/
def validate_file_size (content : List ℕ) (max_size_mb : ℕ) : Bool :=
  let max_size := max_size_mb * 1024 * 1024
  content.length ≤ max_size

/-- The format tag PIL assigns to a successfully parsed image; PIL decodes many
formats beyond PNG and JPEG. -/
inductive PILFormat where
  | png
  | jpeg
  | gif
  | bmp
  | other (name : String)
deriving Repr, DecidableEq

/-- `OCRService.validate_image`: `Image.open(...); image.verify(); return True`
with every exception caught and converted to `False`.  The argument is the
outcome of the PIL open/verify call on the bytes: `.ok fmt` when PIL parses
them as a structurally valid image of format `fmt`, `.error` when it raises. -/
def validate_image (verifyOutcome : Except String PILFormat) : Bool :=
  match verifyOutcome with
  | .ok _ => true
  | .error _ => false

/-- One tuple `(bbox, text, confidence)` of `easyocr.Reader.readtext` output. -/
structure RecognitionHit where
  bbox : List (ℚ × ℚ)
  text : String
  confidence : ℚ
deriving Repr, DecidableEq

/-- The dictionary shape built by `OCRService` and accepted by the pydantic
model `OCRResponse` (`models/schemas.py`): absent dictionary keys become
pydantic's `None` defaults, modelled as `none`. -/
structure ExtractionResult where
  success : Bool
  text : String
  confidence : Option ℚ := none
  word_count : Option ℕ := none
  error : Option String := none
  image_format : Option String := none
  image_size : Option String := none
deriving Repr, DecidableEq

/-- Round-half-to-even to the nearest integer, the tie-breaking rule of
Python's builtin `round`. -/
def roundHalfEven (q : ℚ) : ℤ :=
  if q - ⌊q⌋ < 1/2 then ⌊q⌋
  else if 1/2 < q - ⌊q⌋ then ⌊q⌋ + 1
  else if 2 ∣ ⌊q⌋ then ⌊q⌋ else ⌊q⌋ + 1

/-- Python's `round(x, 3)` on exact rationals. -/
def pyRound3 (q : ℚ) : ℚ :=
  (roundHalfEven (q * 1000) : ℚ) / 1000

/-- Python's `str.strip()` with no argument: remove leading and trailing
whitespace characters. -/
def pyStrip (s : String) : String :=
  String.mk (((s.toList.dropWhile Char.isWhitespace).reverse.dropWhile
    Char.isWhitespace).reverse)

/-- The accumulation loop of `_extract_text`:
`for (bbox, text, confidence) in results: extracted_text.append(text); confidences.append(confidence)`. -/
def collectHits (results : List RecognitionHit) : List String × List ℚ :=
  results.foldl (fun acc h => (acc.1 ++ [h.text], acc.2 ++ [h.confidence])) ([], [])

/-- The body of `OCRService._extract_text` after a successful
`self.reader.readtext` call returning `results`. -/
def extract_text_core (results : List RecognitionHit) : ExtractionResult :=
  let acc := collectHits results
  let extracted_text := acc.1
  let confidences := acc.2
  let full_text := String.intercalate " " extracted_text
  let avg_confidence : ℚ :=
    if confidences.isEmpty then 0 else confidences.sum / (confidences.length : ℚ)
  { success := true
    text := pyStrip full_text
    confidence := some (pyRound3 avg_confidence)
    word_count := some extracted_text.length
    error := none }

/-- `OCRService._extract_text`: the whole body sits in a `try`; the argument is
the outcome of the BGR conversion plus `reader.readtext` call (`.ok results`
on success, `.error e` when any exception is raised inside the `try`). -/
def extract_text (engineOutcome : Except String (List RecognitionHit)) : ExtractionResult :=
  match engineOutcome with
  | .ok results => extract_text_core results
  | .error e =>
    { success := false
      text := ""
      error := some ("OCR processing failed: " ++ e) }

/-- The metadata PIL exposes on an opened image: `pil_image.format` (may be
`None`) and `pil_image.size == (width, height)`. -/
structure DecodedImage where
  width : ℕ
  height : ℕ
  format : Option String
deriving Repr, DecidableEq

/-- `OCRService.process_image`.  `decodeOutcome` is the outcome of the
`Image.open` / RGB conversion / `np.array` / preprocessing steps inside the
`try` (their failure modes are equivalent up to the exception string);
`engineOutcome` is as in `extract_text`. -/
def process_image (healthy : Bool) (decodeOutcome : Except String DecodedImage)
    (engineOutcome : Except String (List RecognitionHit)) : ExtractionResult :=
  if healthy = false then
    { success := false, text := "", error := some "OCR engine not available" }
  else
    match decodeOutcome with
    | .error e =>
      { success := false, text := "", error := some ("Image processing failed: " ++ e) }
    | .ok img =>
      let result := extract_text engineOutcome
      { result with
          image_format := img.format
          image_size := some (toString img.width ++ "x" ++ toString img.height) }

/-- An `np.ndarray` pixel buffer as far as `ImageProcessor.preprocess` inspects
it: `len(image.shape)` distinguishes the 2-D (grayscale) and 3-D (colour)
cases. -/
inductive NDArray where
  | gray2d (rows cols : ℕ) (data : List ℕ)
  | color3d (rows cols channels : ℕ) (data : List ℕ)
deriving Repr, DecidableEq

/-- Whether `len(image.shape) == 3`. -/
def NDArray.isColor3d : NDArray → Bool
  | .gray2d .. => false
  | .color3d .. => true

/-- The `try` body of `ImageProcessor.preprocess`: grayscale conversion when
the buffer is 3-D, then a 3×3 median blur.  `cvtGray` and `medianBlur3` are the
outcomes of the two OpenCV calls (`.error` when the call raises). -/
def preprocessAttempt (cvtGray medianBlur3 : NDArray → Except String NDArray)
    (image : NDArray) : Except String NDArray :=
  let grayOutcome : Except String NDArray :=
    if image.isColor3d then cvtGray image else .ok image
  match grayOutcome with
  | .error e => .error e
  | .ok gray => medianBlur3 gray

/-- `ImageProcessor.preprocess`: run the `try` body; on any exception, log and
return the unmodified input image. -/
def preprocess (cvtGray medianBlur3 : NDArray → Except String NDArray)
    (image : NDArray) : NDArray :=
  match preprocessAttempt cvtGray medianBlur3 image with
  | .ok denoised => denoised
  | .error _ => image

/-- The value a `predict` request resolves to: a serialized `OCRResponse`, or
an `HTTPException(status_code, detail)`. -/
inductive PredictResponse where
  | ok (result : ExtractionResult)
  | httpError (status_code : ℕ) (detail : String)
deriving Repr, DecidableEq

/-- The `predict` route of `api/routes.py`.  `readOutcome` is the outcome of
`await image.read()`; `verify` maps the bytes to the PIL open/verify outcome
used by `validate_image`; `decodeOutcome` and `engineOutcome` feed
`process_image`.  `HTTPException`s raised inside the `try` are re-raised
unchanged by the `except HTTPException` arm; any other exception becomes the
500 response. -/
def predict (content_type : String) (svc : OCRServiceState)
    (readOutcome : Except String (List ℕ))
    (verify : List ℕ → Except String PILFormat)
    (decodeOutcome : Except String DecodedImage)
    (engineOutcome : Except String (List RecognitionHit)) : PredictResponse :=
  if validate_image_content_type content_type = false then
    .httpError 400 "File must be a supported image type (PNG, JPG, JPEG)"
  else if is_healthy svc = false then
    .httpError 503 "OCR service temporarily unavailable"
  else
    match readOutcome with
    | .error e => .httpError 500 ("Internal server error: " ++ e)
    | .ok contents =>
      if validate_file_size contents 10 = false then
        .httpError 400 "File size too large. Maximum size is 10MB"
      else if validate_image (verify contents) = false then
        .httpError 400 "Invalid image file"
      else
        .ok (process_image (is_healthy svc) decodeOutcome engineOutcome)

/-! ## Helper lemmas -/

theorem collectHits_foldl (results : List RecognitionHit) (a : List String) (b : List ℚ) :
    results.foldl (fun acc h => (acc.1 ++ [h.text], acc.2 ++ [h.confidence])) (a, b) =
      (a ++ results.map RecognitionHit.text, b ++ results.map RecognitionHit.confidence) := by
  induction results generalizing a b with
  | nil => simp
  | cons h t ih => simp [ih]

theorem collectHits_eq (results : List RecognitionHit) :
    collectHits results =
      (results.map RecognitionHit.text, results.map RecognitionHit.confidence) := by
  simpa using collectHits_foldl results [] []

theorem extract_text_core_text (hits : List RecognitionHit) :
    (extract_text_core hits).text =
      pyStrip (String.intercalate " " (hits.map RecognitionHit.text)) := by
  simp [extract_text_core, collectHits_eq]

theorem extract_text_core_word_count (hits : List RecognitionHit) :
    (extract_text_core hits).word_count = some hits.length := by
  simp [extract_text_core, collectHits_eq]

theorem extract_text_core_confidence (hits : List RecognitionHit) :
    (extract_text_core hits).confidence =
      some (pyRound3 (if hits = [] then 0
        else (hits.map RecognitionHit.confidence).sum / (hits.length : ℚ))) := by
  rcases hits with _ | ⟨h, t⟩ <;>
    simp [extract_text_core, collectHits_eq]

theorem list_mean_mem_unit (l : List ℚ) (hne : l ≠ [])
    (hb : ∀ x ∈ l, 0 ≤ x ∧ x ≤ 1) :
    0 ≤ l.sum / (l.length : ℚ) ∧ l.sum / (l.length : ℚ) ≤ 1 := by
  have hlen : 0 < (l.length : ℚ) := by
    have : 0 < l.length := List.length_pos.mpr hne
    exact_mod_cast this
  have hsum0 : 0 ≤ l.sum := List.sum_nonneg fun x hx => (hb x hx).1
  have hsum1 : l.sum ≤ (l.length : ℚ) := by
    have := List.sum_le_card_nsmul l 1 fun x hx => (hb x hx).2
    simpa [nsmul_eq_mul] using this
  exact ⟨div_nonneg hsum0 hlen.le, (div_le_one hlen).mpr hsum1⟩

theorem roundHalfEven_nonneg (q : ℚ) (hq : 0 ≤ q) : 0 ≤ roundHalfEven q := by
  have hf : (0 : ℤ) ≤ ⌊q⌋ := Int.floor_nonneg.mpr hq
  unfold roundHalfEven
  split_ifs <;> omega

theorem roundHalfEven_le (q : ℚ) (n : ℤ) (hq : q ≤ (n : ℚ)) : roundHalfEven q ≤ n := by
  have hf : ⌊q⌋ ≤ n := by
    have := Int.floor_le_floor hq
    simpa using this
  have hkey : ¬ q - (⌊q⌋ : ℚ) < 1/2 → ⌊q⌋ + 1 ≤ n := by
    intro h
    have h' : (⌊q⌋ : ℚ) + 1/2 ≤ q := by linarith [not_lt.mp h]
    have hlt : (⌊q⌋ : ℚ) < (n : ℚ) := by linarith
    have : ⌊q⌋ < n := by exact_mod_cast hlt
    omega
  unfold roundHalfEven
  split_ifs with h1 h2 h3
  · exact hf
  · exact hkey h1
  · exact hf
  · exact hkey h1

theorem pyRound3_mem_unit (q : ℚ) (h0 : 0 ≤ q) (h1 : q ≤ 1) :
    0 ≤ pyRound3 q ∧ pyRound3 q ≤ 1 := by
  have ha : 0 ≤ q * 1000 := by positivity
  have hb : q * 1000 ≤ ((1000 : ℤ) : ℚ) := by push_cast; linarith
  have r1 := roundHalfEven_nonneg (q * 1000) ha
  have r2 := roundHalfEven_le (q * 1000) 1000 hb
  unfold pyRound3
  constructor
  · have : (0 : ℚ) ≤ (roundHalfEven (q * 1000) : ℚ) := by exact_mod_cast r1
    positivity
  · rw [div_le_one (by norm_num)]
    exact_mod_cast r2

/-! ## Claim theorems -/

/-- C1 (counterexample): the claim "when ServiceHealth is Unavailable, predict
always returns the ServiceUnavailable error regardless of the declared content
type" is false: with an uninitialized reader and declared content type
`text/plain`, `predict` returns the 400 content-type error, not the 503. -/
theorem c1_counterexample :
    predict "text/plain" ⟨none⟩ (.ok []) (fun _ => .error "pil") (.error "decode")
        (.error "engine") =
      .httpError 400 "File must be a supported image type (PNG, JPG, JPEG)" ∧
    predict "text/plain" ⟨none⟩ (.ok []) (fun _ => .error "pil") (.error "decode")
        (.error "engine") ≠
      .httpError 503 "OCR service temporarily unavailable" := by
  refine ⟨rfl, ?_⟩
  decide

/-- C1 (amended): when ServiceHealth is Unavailable and the declared content
type is supported, `predict` returns the 503 ServiceUnavailable error
regardless of the payload and of every downstream outcome — in particular the
response does not depend on the recognition-engine outcome, so the engine is
never invoked. -/
theorem c1_unavailable_returns_503 (content_type : String) (svc : OCRServiceState)
    (readOutcome : Except String (List ℕ)) (verify : List ℕ → Except String PILFormat)
    (decodeOutcome : Except String DecodedImage)
    (engineOutcome : Except String (List RecognitionHit))
    (hct : validate_image_content_type content_type = true)
    (hsvc : is_healthy svc = false) :
    predict content_type svc readOutcome verify decodeOutcome engineOutcome =
      .httpError 503 "OCR service temporarily unavailable" := by
  simp [predict, hct, hsvc]

/-- C1 witness. -/
theorem c1_unavailable_returns_503_witness :
    predict "image/png" ⟨none⟩ (.ok [0]) (fun _ => .ok .png) (.ok ⟨100, 100, some "PNG"⟩)
        (.ok []) =
      .httpError 503 "OCR service temporarily unavailable" :=
  c1_unavailable_returns_503 "image/png" ⟨none⟩ (.ok [0]) (fun _ => .ok .png)
    (.ok ⟨100, 100, some "PNG"⟩) (.ok []) (by decide) (by decide)

/-- C2: the content-type gate of `predict` rejects exactly when the declared
content type is outside the supported set (the PNG and JPEG MIME types); the
check is a function of the declared type alone, and when it rejects, `predict`
returns the 400 error regardless of the payload bytes, the PIL verify outcome,
and every decode/recognition outcome — i.e. before any decode attempt. -/
theorem c2_content_type_gate (content_type : String) (svc : OCRServiceState)
    (readOutcome : Except String (List ℕ)) (verify : List ℕ → Except String PILFormat)
    (decodeOutcome : Except String DecodedImage)
    (engineOutcome : Except String (List RecognitionHit)) :
    (validate_image_content_type content_type = false ↔
      ¬ (content_type = "image/png" ∨ content_type = "image/jpeg" ∨
          content_type = "image/jpg")) ∧
    (validate_image_content_type content_type = false →
      predict content_type svc readOutcome verify decodeOutcome engineOutcome =
        .httpError 400 "File must be a supported image type (PNG, JPG, JPEG)") := by
  constructor
  · simp [validate_image_content_type]
  · intro h
    simp [predict, h]

/-- C2 witness. -/
theorem c2_content_type_gate_witness :
    validate_image_content_type "image/gif" = false ∧
    predict "image/gif" ⟨none⟩ (.ok []) (fun _ => .error "x") (.error "x") (.error "x") =
      .httpError 400 "File must be a supported image type (PNG, JPG, JPEG)" :=
  ⟨by decide,
    (c2_content_type_gate "image/gif" ⟨none⟩ (.ok []) (fun _ => .error "x") (.error "x")
      (.error "x")).2 (by decide)⟩

/-- C3: for every sequence of recognition hits, the aggregated text equals the
hit texts joined in engine-emission order with a single space separator, then
trimmed of leading/trailing whitespace — no reordering, no deduplication. -/
theorem c3_text_is_join_trim (hits : List RecognitionHit) :
    (extract_text (.ok hits)).text =
      pyStrip (String.intercalate " " (hits.map RecognitionHit.text)) :=
  extract_text_core_text hits

/-- C4: the aggregated confidence is the arithmetic mean of the hit confidences
rounded to 3 decimal places (0 for the empty hit list), and whenever every hit
confidence lies in [0,1] the aggregated confidence lies in [0,1]. -/
theorem c4_confidence_mean (hits : List RecognitionHit) :
    ((extract_text (.ok hits)).confidence =
      some (pyRound3 (if hits = [] then 0
        else (hits.map RecognitionHit.confidence).sum / (hits.length : ℚ)))) ∧
    ((extract_text (Except.ok ([] : List RecognitionHit))).confidence = some 0) ∧
    ((∀ h ∈ hits, 0 ≤ h.confidence ∧ h.confidence ≤ 1) →
      ∃ q, (extract_text (.ok hits)).confidence = some q ∧ 0 ≤ q ∧ q ≤ 1) := by
  refine ⟨extract_text_core_confidence hits,
    by norm_num [extract_text, extract_text_core, collectHits, pyRound3, roundHalfEven], ?_⟩
  intro hb
  refine ⟨_, extract_text_core_confidence hits, ?_⟩
  rcases eq_or_ne hits [] with hnil | hne
  · subst hnil
    norm_num [pyRound3, roundHalfEven]
  · rw [if_neg hne]
    have hmaps : (hits.map RecognitionHit.confidence).length = hits.length :=
      List.length_map _ _
    have hmean := list_mean_mem_unit (hits.map RecognitionHit.confidence)
      (by simpa using hne)
      (by intro x hx; rcases List.mem_map.mp hx with ⟨h, hh, rfl⟩; exact hb h hh)
    rw [hmaps] at hmean
    exact pyRound3_mem_unit _ hmean.1 hmean.2

/-- C4 witness. -/
theorem c4_confidence_mean_witness :
    ∃ q, (extract_text (.ok [⟨[], "HELLO", 1/2⟩])).confidence = some q ∧ 0 ≤ q ∧ q ≤ 1 :=
  (c4_confidence_mean [⟨[], "HELLO", 1/2⟩]).2.2
    (by intro h hh; rw [List.mem_singleton] at hh; subst hh; norm_num)

/-- C5: the aggregated word_count equals the number of recognition hits
supplied (the number of recognized regions), for every hit sequence. -/
theorem c5_word_count_is_hit_count (hits : List RecognitionHit) :
    (extract_text (.ok hits)).word_count = some hits.length :=
  extract_text_core_word_count hits

/-- C6: zero recognition hits aggregate to a successful result with empty
text, confidence 0, word_count 0 and no error. -/
theorem c6_zero_hits_success :
    extract_text (Except.ok ([] : List RecognitionHit)) =
      { success := true, text := "", confidence := some 0, word_count := some 0,
        error := none } := by
  norm_num [extract_text, extract_text_core, collectHits, pyRound3, roundHalfEven,
    String.intercalate]
  rfl

/-- C7: every result of `process_image` satisfies the invariant
success = true ↔ error absent, and success = false → text = "" and error
present — for every health state, decode outcome and engine outcome. -/
theorem c7_success_error_invariant (healthy : Bool)
    (decodeOutcome : Except String DecodedImage)
    (engineOutcome : Except String (List RecognitionHit)) :
    ((process_image healthy decodeOutcome engineOutcome).success = true ↔
      (process_image healthy decodeOutcome engineOutcome).error = none) ∧
    ((process_image healthy decodeOutcome engineOutcome).success = false →
      (process_image healthy decodeOutcome engineOutcome).text = "" ∧
      (process_image healthy decodeOutcome engineOutcome).error ≠ none) := by
  cases healthy <;> cases decodeOutcome <;> cases engineOutcome <;>
    simp [process_image, extract_text, extract_text_core]

/-- C7 witness. -/
theorem c7_success_error_invariant_witness :
    (process_image false (.error "d") (.error "e")).text = "" ∧
    (process_image false (.error "d") (.error "e")).error ≠ none :=
  (c7_success_error_invariant false (.error "d") (.error "e")).2 rfl

/-- C8: `preprocess` never propagates a fault: when the normalization attempt
fails it returns the unmodified input image, when it succeeds it returns the
denoised image, and in every case it returns some image. -/
theorem c8_preprocess_never_raises (cvtGray medianBlur3 : NDArray → Except String NDArray)
    (image : NDArray) :
    (∀ e, preprocessAttempt cvtGray medianBlur3 image = .error e →
      preprocess cvtGray medianBlur3 image = image) ∧
    (∀ out, preprocessAttempt cvtGray medianBlur3 image = .ok out →
      preprocess cvtGray medianBlur3 image = out) ∧
    (∃ result, preprocess cvtGray medianBlur3 image = result) := by
  refine ⟨?_, ?_, ⟨_, rfl⟩⟩ <;> intro x h <;> simp [preprocess, h]

/-- C8 witness: a grayscale-conversion failure on a 4-channel buffer returns
the unmodified buffer. -/
theorem c8_preprocess_never_raises_witness :
    preprocess (fun _ => .error "unexpected channel layout") (fun a => .ok a)
        (.color3d 1 1 4 [0, 0, 0, 0]) =
      .color3d 1 1 4 [0, 0, 0, 0] :=
  (c8_preprocess_never_raises (fun _ => .error "unexpected channel layout")
    (fun a => .ok a) (.color3d 1 1 4 [0, 0, 0, 0])).1 "unexpected channel layout" rfl

/-- C9 (counterexample): the 500 detail string is not a generic message — it
embeds the internal exception text, so two different internal failures produce
two different details. -/
theorem c9_counterexample :
    predict "image/png" ⟨some ⟨["en"], false⟩⟩ (.error "ValueError: boom")
        (fun _ => .ok .png) (.error "d") (.error "e") =
      .httpError 500 "Internal server error: ValueError: boom" ∧
    predict "image/png" ⟨some ⟨["en"], false⟩⟩ (.error "ValueError: zap")
        (fun _ => .ok .png) (.error "d") (.error "e") =
      .httpError 500 "Internal server error: ValueError: zap" ∧
    ("Internal server error: ValueError: boom" : String) ≠
      "Internal server error: ValueError: zap" := by
  refine ⟨rfl, rfl, by decide⟩

/-- C9 (amended): when an unexpected failure escapes inside the predict `try`
(modelled on the body-read step, the only unguarded operation), the response
is a 500-equivalent whose detail is the fixed prefix "Internal server error: "
followed by the internal exception's message (the message is leaked, not
suppressed). -/
theorem c9_internal_error_detail (content_type : String) (svc : OCRServiceState)
    (msg : String) (verify : List ℕ → Except String PILFormat)
    (decodeOutcome : Except String DecodedImage)
    (engineOutcome : Except String (List RecognitionHit))
    (hct : validate_image_content_type content_type = true)
    (hsvc : is_healthy svc = true) :
    predict content_type svc (.error msg) verify decodeOutcome engineOutcome =
      .httpError 500 ("Internal server error: " ++ msg) := by
  simp [predict, hct, hsvc]

/-- C9 witness. -/
theorem c9_internal_error_detail_witness :
    predict "image/jpeg" ⟨some ⟨["en"], false⟩⟩ (.error "read failed")
        (fun _ => .ok .jpeg) (.error "d") (.error "e") =
      .httpError 500 "Internal server error: read failed" :=
  c9_internal_error_detail "image/jpeg" ⟨some ⟨["en"], false⟩⟩ "read failed"
    (fun _ => .ok .jpeg) (.error "d") (.error "e") (by decide) rfl

/-- C10: the structural integrity check accepts every PIL-parsable format (it
never inspects the parsed format), so bytes that PIL parses as a GIF, declared
as `image/png` and within the size bound, pass both validation gates and
proceed to recognition via `process_image`. -/
theorem c10_structural_check_format_agnostic (fmt : PILFormat) (contents : List ℕ)
    (svc : OCRServiceState) (verify : List ℕ → Except String PILFormat)
    (decodeOutcome : Except String DecodedImage)
    (engineOutcome : Except String (List RecognitionHit))
    (hverify : verify contents = .ok PILFormat.gif)
    (hsize : contents.length ≤ 10 * 1024 * 1024)
    (hsvc : is_healthy svc = true) :
    validate_image (.ok fmt) = true ∧
    predict "image/png" svc (.ok contents) verify decodeOutcome engineOutcome =
      .ok (process_image (is_healthy svc) decodeOutcome engineOutcome) := by
  have hct : validate_image_content_type "image/png" = true := by decide
  have hfs : validate_file_size contents 10 = true := by
    simp [validate_file_size]
    exact hsize
  have hvi : validate_image (verify contents) = true := by rw [hverify]; rfl
  exact ⟨rfl, by simp [predict, hct, hsvc, hfs, hvi]⟩

/-- C10 witness. -/
theorem c10_structural_check_format_agnostic_witness :
    validate_image (.ok PILFormat.gif) = true ∧
    predict "image/png" ⟨some ⟨["en"], false⟩⟩ (.ok [0]) (fun _ => .ok PILFormat.gif)
        (.ok ⟨50, 50, some "GIF"⟩) (.ok []) =
      .ok (process_image (is_healthy ⟨some ⟨["en"], false⟩⟩)
            (.ok ⟨50, 50, some "GIF"⟩) (.ok [])) :=
  c10_structural_check_format_agnostic PILFormat.gif [0] ⟨some ⟨["en"], false⟩⟩
    (fun _ => .ok PILFormat.gif) (.ok ⟨50, 50, some "GIF"⟩) (.ok [])
    rfl (by norm_num) rfl

end OCRApp
